import Mathlib

/-!
Verification of the concurrency core of ThreadBuddies/chat:
- `common::AwaitableGuarded<T>` (src/common/include/common/utils/AwaitableGuarded.h):
  an asynchronous reader-writer lock with an atomic `int m_state`
  (0 = free, -1 = unique holder, n > 0 = n shared holders) and RAII proxies.
- `server::resume_on_io_loop` / `switch_to_io_loop`
  (src/server/include/server/utils/switch_to_io_loop.h):
  a continuation marshaller that reposts resumption onto the origin IO loop.

The embedding is shallow: each atomic operation of the C++ code becomes a pure
Lean function of the values the atomic variable holds at the instants the code
touches it, and the lock protocol becomes an explicit event-step relation.
-/

namespace Chat

/-! ## The lock state attempts (`AwaitableGuarded`)

A single acquisition attempt touches `m_state` at most twice: one `load`, then
at most one `compare_exchange_strong`.  Between the two, other threads may
mutate the state, so an attempt is embedded as a function of the value seen by
the load (`loaded`) and the value the state holds at the instant of the CAS
(`sAtCAS`).  `compare_exchange_strong` never fails spuriously: it succeeds
exactly when the stored value equals the expected value. -/

/-- Outcome of one lock-acquisition attempt on the atomic `m_state`:
whether `try_lock` returned `true`, the value `m_state` holds right after the
last interaction of the attempt with it, and the list of values it wrote
to `m_state` (empty or a single successful CAS). -/
structure AttemptResult where
  ok : Bool
  after : Int
  writes : List Int
  deriving Repr, DecidableEq

/-- Model of `SharedLockAwaitable::try_lock` (AwaitableGuarded.h:166-172):
`auto current = m_state.load(); if (current >= 0) return
m_state.compare_exchange_strong(current, current + 1); return false;`.
`loaded` is the value the load returns; `sAtCAS` is the value `m_state` holds
when the CAS executes.  If `loaded < 0` no CAS is executed and the last
interaction of the attempt is the load itself. -/
def sharedTryLock (loaded sAtCAS : Int) : AttemptResult :=
  if 0 ≤ loaded then
    if sAtCAS = loaded then ⟨true, loaded + 1, [loaded + 1]⟩
    else ⟨false, sAtCAS, []⟩
  else ⟨false, loaded, []⟩

/-- Model of `UniqueLockAwaitable::try_lock` (AwaitableGuarded.h:187-190):
`int expected = 0; return m_state.compare_exchange_strong(expected, -1);`.
A single CAS, so the attempt is a function of the state at the CAS alone. -/
def uniqueTryLock (sAtCAS : Int) : AttemptResult :=
  if sAtCAS = 0 then ⟨true, -1, [-1]⟩ else ⟨false, sAtCAS, []⟩

/-- Model of `LockAwaitableBase::spin` (AwaitableGuarded.h:141-151), which
retries `try_lock`
as a freshly queued attempt until one succeeds.  Each element of the list is
the pair of state values `(loaded, sAtCAS)` observed by one attempt; the spin
returns the state stored by the first successful attempt. -/
def spinShared : List (Int × Int) → Option Int
  | [] => none
  | (l, c) :: rest =>
    let r := sharedTryLock l c
    if r.ok then some r.after else spinShared rest

/-! ## The lock protocol as an event system

Each event below is one whole atomic interaction with `m_state` under correct
proxy use (a release is issued only by the destructor of a live proxy).  A
successful shared CAS from `v` to `v + 1` takes effect atomically at the CAS
instant, and its effect depends only on the compared value `v`, so a serialized
event model in which every attempt reads and CASes the current state is an
exact linearization of the concurrent executions. -/

/-- The shared picture of one `AwaitableGuarded` resource: the atomic
`m_state` together with the number of live `SharedProxy` and `UniqueProxy`
objects (a proxy is live from a successful `try_lock` until its destructor
runs). -/
structure LockState where
  state : Int
  sharedHolders : Nat
  uniqueHolders : Nat
  deriving Repr, DecidableEq

/-- The four kinds of atomic interaction with `m_state`: an acquisition
attempt by either awaitable, and the destructor of either proxy. -/
inductive LockEvent where
  | attemptShared
  | attemptUnique
  | releaseShared
  | releaseUnique
  deriving Repr, DecidableEq

/-- One event of the lock protocol.  An attempt executes `try_lock` against
the current state (a failed attempt changes nothing); `~SharedProxy`
(AwaitableGuarded.h:62-66) executes `m_state.fetch_sub(1)`; `~UniqueProxy`
(AwaitableGuarded.h:90-94) executes `m_state.store(0)`.  `none` marks an event
that correct proxy use cannot produce (a release with no live proxy). -/
def stepLock (ls : LockState) : LockEvent → Option LockState
  | .attemptShared =>
    let r := sharedTryLock ls.state ls.state
    some { state := r.after
           sharedHolders := ls.sharedHolders + (if r.ok then 1 else 0)
           uniqueHolders := ls.uniqueHolders }
  | .attemptUnique =>
    let r := uniqueTryLock ls.state
    some { state := r.after
           sharedHolders := ls.sharedHolders
           uniqueHolders := ls.uniqueHolders + (if r.ok then 1 else 0) }
  | .releaseShared =>
    if ls.sharedHolders = 0 then none
    else some { state := ls.state - 1
                sharedHolders := ls.sharedHolders - 1
                uniqueHolders := ls.uniqueHolders }
  | .releaseUnique =>
    if ls.uniqueHolders = 0 then none
    else some { state := 0
                sharedHolders := ls.sharedHolders
                uniqueHolders := ls.uniqueHolders - 1 }

/-- Run a sequence of lock events from a given state. -/
def runLock : LockState → List LockEvent → Option LockState
  | ls, [] => some ls
  | ls, e :: es =>
    match stepLock ls e with
    | none => none
    | some ls' => runLock ls' es

/-- The initial state of a freshly created resource: `m_state{0}` and no
proxies. -/
def initLock : LockState := ⟨0, 0, 0⟩

/-- A lock state reachable from the initial state by some event sequence. -/
def ReachableLock (ls : LockState) : Prop :=
  ∃ evs : List LockEvent, runLock initLock evs = some ls

/-- The inductive invariant tying `m_state` to the live proxies: either no
unique holder and the state counts the shared holders, or exactly one unique
holder, no shared holder, and state -1. -/
def LockInv (ls : LockState) : Prop :=
  (ls.uniqueHolders = 0 ∧ ls.state = ls.sharedHolders) ∨
  (ls.uniqueHolders = 1 ∧ ls.sharedHolders = 0 ∧ ls.state = -1)

/-! ## The proxies as objects (`SharedProxy` / `UniqueProxy`)

Both proxies store `const std::shared_ptr<AwaitableGuarded<T>> m_guarded;`,
delete their copy constructor and both assignment operators, and default their
move constructor (AwaitableGuarded.h:60-110).  Because the member is `const`,
the defaulted move constructor cannot invoke the move constructor of `shared_ptr`:
member-wise initialization from `const shared_ptr&&` selects the copy
constructor, so the moved-from proxy keeps its non-null pointer.  The model
records only whether `m_guarded` is non-null, which is all the destructor
tests. -/

/-- A `SharedProxy` object: `m_guarded` is `true` when the `const
shared_ptr` member is non-null (it is initialized from the non-null pointer
held by the awaitable, AwaitableGuarded.h:78-79). -/
structure SharedProxyModel where
  m_guarded : Bool
  deriving Repr, DecidableEq

namespace SharedProxyModel

/-- The move constructor `SharedProxy(SharedProxy&&) noexcept = default;`
(AwaitableGuarded.h:70)
with a `const shared_ptr` member: member-wise initialization resolves to the
`shared_ptr` copy constructor, so the destination receives the pointer and the
source keeps it.  Returns (destination, source after the move). -/
def moveConstruct (p : SharedProxyModel) : SharedProxyModel × SharedProxyModel :=
  (⟨p.m_guarded⟩, ⟨p.m_guarded⟩)

/-- The destructor `~SharedProxy()` (AwaitableGuarded.h:62-66): `if (m_guarded)
m_guarded->m_state.fetch_sub(1);` applied to the current value of `m_state`. -/
def destructEffect (p : SharedProxyModel) (s : Int) : Int :=
  if p.m_guarded then s - 1 else s

end SharedProxyModel

/-- A `UniqueProxy` object, same shape as `SharedProxyModel`
(AwaitableGuarded.h:88-110). -/
structure UniqueProxyModel where
  m_guarded : Bool
  deriving Repr, DecidableEq

namespace UniqueProxyModel

/-- The move constructor `UniqueProxy(UniqueProxy&&) noexcept = default;`
(AwaitableGuarded.h:98):
same `const` member analysis as for `SharedProxyModel.moveConstruct`. -/
def moveConstruct (p : UniqueProxyModel) : UniqueProxyModel × UniqueProxyModel :=
  (⟨p.m_guarded⟩, ⟨p.m_guarded⟩)

/-- The destructor `~UniqueProxy()` (AwaitableGuarded.h:90-94): `if (m_guarded)
m_guarded->m_state.store(0);`. -/
def destructEffect (p : UniqueProxyModel) (s : Int) : Int :=
  if p.m_guarded then 0 else s

end UniqueProxyModel

/-! ## `await_ready` of the two awaiter families -/

/-- Model of `awaiter::await_ready` in `resume_on_io_loop`
(switch_to_io_loop.h:81-83): `return false;`.  The parameter records whether
the wrapped inner awaitable could complete synchronously; the code never
consults it. -/
def resumeAwaitReady (_innerCouldCompleteSynchronously : Bool) : Bool :=
  false

/-- Model of `LockAwaitableBase::await_ready` (AwaitableGuarded.h:125-127) for the
shared awaitable: it returns `try_lock()`, the immediate acquisition attempt,
executed here with no interference between its load and its CAS. -/
def sharedAwaitReady (s : Int) : Bool :=
  (sharedTryLock s s).ok

/-- Model of `LockAwaitableBase::await_ready` for the unique awaitable:
`try_lock()`. -/
def uniqueAwaitReady (s : Int) : Bool :=
  (uniqueTryLock s).ok

/-! ## `isHolding` -/

/-- A reference to a `T` object, with its memory address and its value kept
separate so that identity (`std::addressof` comparison) and value equality are
distinguishable. -/
structure DataRef (T : Type) where
  addr : Nat
  val : T
  deriving Repr, DecidableEq

/-- An `AwaitableGuarded<T>` object as seen by `isHolding`: the atomic state
and the owned `m_data` object. -/
structure GuardedModel (T : Type) where
  m_state : Int
  m_data : DataRef T
  deriving Repr, DecidableEq

/-- Model of `AwaitableGuarded::isHolding` (AwaitableGuarded.h:220-223):
`return std::addressof(this->m_data) == std::addressof(a_data);`.  The method
is `const noexcept`; the model returns the resource alongside the boolean to
record that the call leaves it untouched. -/
def isHolding {T : Type} (g : GuardedModel T) (a_data : DataRef T) :
    Bool × GuardedModel T :=
  (g.m_data.addr == a_data.addr, g)

/-! ## `resume_on_io_loop` / `switch_to_io_loop`

`E` stands for the payload carried by a `std::exception_ptr`; `V` for the
non-void `ResultType`. -/

/-- The awaiter field `m_result` for a non-void `ResultType`
(switch_to_io_loop.h:72-76): `std::variant<std::monostate, std::exception_ptr,
ResultType>`, initialized to `monostate`. -/
inductive ResultSlot (E V : Type) where
  | monostate
  | exceptionPtr (e : E)
  | value (v : V)
  deriving Repr, DecidableEq

/-- The awaiter field `m_result` when `ResultType` is void
(switch_to_io_loop.h:72-74): `std::variant<std::monostate,
std::exception_ptr>`. -/
inductive VoidSlot (E : Type) where
  | monostate
  | exceptionPtr (e : E)
  deriving Repr, DecidableEq

/-- What `co_await self->m_inner_awaiter` does inside the fire-and-forget
lambda: either completes with a value `v` or throws an exception `e`. -/
inductive InnerOutcome (E V : Type) where
  | ok (v : V)
  | err (e : E)
  deriving Repr, DecidableEq

/-- The try/catch body of the fire-and-forget lambda for a non-void
`ResultType` (switch_to_io_loop.h:118-129): on success
`m_result.emplace<ResultType>(value)`, on exception
`m_result.emplace<std::exception_ptr>(current_exception())`. -/
def lambdaBody {E V : Type} (out : InnerOutcome E V) : ResultSlot E V :=
  match out with
  | .ok v => .value v
  | .err e => .exceptionPtr e

/-- The same try/catch body when `ResultType` is void: success executes only
`co_await self->m_inner_awaiter;` and leaves `m_result` at `monostate`; an
exception stores the `exception_ptr`.  `out = none` is success, `out = some e`
an exception `e`. -/
def lambdaBodyVoid {E : Type} (out : Option E) : VoidSlot E :=
  match out with
  | none => .monostate
  | some e => .exceptionPtr e

/-- What awaiting the wrapper yields to the caller: the inner value, the
rethrow of the captured `exception_ptr`, or the freshly thrown
`std::runtime_error("await_resume: neither exception nor value is in
m_result")`. -/
inductive ResumeError (E : Type) where
  | rethrown (e : E)
  | internalRuntimeError
  deriving Repr, DecidableEq

/-- Model of `awaiter::await_resume` for a non-void `ResultType`
(switch_to_io_loop.h:90-101): rethrow a held `exception_ptr`; else return a
held value; else throw the distinguished `runtime_error`. -/
def awaitResume {E V : Type} (slot : ResultSlot E V) : Except (ResumeError E) V :=
  match slot with
  | .exceptionPtr e => .error (.rethrown e)
  | .value v => .ok v
  | .monostate => .error .internalRuntimeError

/-- Model of `awaiter::await_resume` when `ResultType` is void: rethrow a held
`exception_ptr`; otherwise the `if constexpr (!is_void_v)` block is compiled
out and the function returns normally. -/
def awaitResumeVoid {E : Type} (slot : VoidSlot E) : Except (ResumeError E) Unit :=
  match slot with
  | .exceptionPtr e => .error (.rethrown e)
  | .monostate => .ok ()

/-- The observable effects of `awaiter::await_suspend`
(switch_to_io_loop.h:106-138) followed by the completion of the detached
lambda. -/
structure SuspendTrace (E V : Type) where
  /-- Value of `m_original_thread_index` after the capture-and-fallback step. -/
  capturedIndex : Nat
  /-- Value of `m_result` after the try/catch of the lambda ran. -/
  slot : ResultSlot E V
  /-- The IO-loop index passed to `getIOLoop(...)->queueInLoop([handle] {
  handle.resume(); })` by the lambda. -/
  postedResumeTo : Nat
  deriving Repr, DecidableEq

/-- Model of `awaiter::await_suspend` (switch_to_io_loop.h:106-138):
`m_original_thread_index = getCurrentThreadIndex(); if (m_original_thread_index
>= getThreadNum()) m_original_thread_index = 0;`, then the lambda runs the
inner awaitable on some thread (`completionThread`), records the outcome in
`m_result`, and posts the resumption to
`getIOLoop(self->m_original_thread_index)`. -/
def awaitSuspendRun {E V : Type} (currentIdx threadNum : Nat)
    (_completionThread : Nat) (out : InnerOutcome E V) : SuspendTrace E V :=
  let idx := if currentIdx ≥ threadNum then 0 else currentIdx
  { capturedIndex := idx
    slot := lambdaBody out
    postedResumeTo := idx }

/-! ## Invariant lemmas for the lock protocol -/

theorem stepLock_inv {ls ls' : LockState} {e : LockEvent}
    (hinv : LockInv ls) (h : stepLock ls e = some ls') : LockInv ls' := by
  obtain ⟨s, sh, u⟩ := ls
  obtain ⟨s', sh', u'⟩ := ls'
  simp only [LockInv] at hinv ⊢
  cases e <;>
    simp only [stepLock, sharedTryLock, uniqueTryLock] at h <;>
    split_ifs at h <;>
    simp only [Option.some.injEq, LockState.mk.injEq] at h <;>
    simp_all <;>
    omega

theorem runLock_inv : ∀ (evs : List LockEvent) (ls ls' : LockState),
    LockInv ls → runLock ls evs = some ls' → LockInv ls'
  | [], ls, ls', hinv, h => by
    simp [runLock] at h
    exact h ▸ hinv
  | e :: es, ls, ls', hinv, h => by
    simp only [runLock] at h
    cases hstep : stepLock ls e with
    | none => simp [hstep] at h
    | some ls₁ =>
      rw [hstep] at h
      exact runLock_inv es ls₁ ls' (stepLock_inv hinv hstep) h

theorem reachable_lockInv {ls : LockState} (h : ReachableLock ls) : LockInv ls := by
  obtain ⟨evs, hrun⟩ := h
  exact runLock_inv evs initLock ls (Or.inl ⟨rfl, rfl⟩) hrun

/-! ## Claim theorems -/

/-- C1: the claim "across the lifetimes of every proxy object arising from a
single acquisition (including any it was moved into or out of) the lock is
released exactly once" fails on the code.  A shared acquisition at state 0
takes the state to 1; moving the resulting proxy leaves the `const` member
`m_guarded` of the moved-from proxy non-null, so destroying the destination and then the
moved-from source decrements twice, ending at state -1 instead of 0. -/
theorem sharedProxy_move_double_release :
    (sharedTryLock 0 0).ok = true ∧
    SharedProxyModel.destructEffect
        (SharedProxyModel.moveConstruct ⟨true⟩).2
        (SharedProxyModel.destructEffect
          (SharedProxyModel.moveConstruct ⟨true⟩).1
          (sharedTryLock 0 0).after) = -1 := by
  decide

/-- C2: mutual exclusion.  A unique acquisition succeeds exactly by the CAS
from state 0 (to -1), a shared acquisition only when the loaded state is
nonnegative, and in every lock state reachable under correct proxy use there
are never simultaneously a live `UniqueProxy` and another live proxy (a
`SharedProxy` or a second `UniqueProxy`). -/
theorem lock_mutual_exclusion :
    (∀ s : Int, (uniqueTryLock s).ok = true ↔ s = 0) ∧
    (∀ l c : Int, (sharedTryLock l c).ok = true → 0 ≤ l) ∧
    (∀ ls : LockState, ReachableLock ls →
      ¬ (1 ≤ ls.uniqueHolders ∧ (1 ≤ ls.sharedHolders ∨ 2 ≤ ls.uniqueHolders))) := by
  refine ⟨?_, ?_, ?_⟩
  · intro s
    simp only [uniqueTryLock]
    split_ifs with h <;> simp [h]
  · intro l c
    simp only [sharedTryLock]
    split_ifs with h0 h1 <;> simp_all
  · intro ls hreach
    have hinv := reachable_lockInv hreach
    rcases hinv with ⟨hu, _⟩ | ⟨hu, hs, _⟩ <;> omega

/-- Witness for C2 at the state reached by one successful unique
acquisition. -/
theorem lock_mutual_exclusion_witness :
    ReachableLock ⟨-1, 0, 1⟩ ∧
    ¬ (1 ≤ (⟨-1, 0, 1⟩ : LockState).uniqueHolders ∧
       (1 ≤ (⟨-1, 0, 1⟩ : LockState).sharedHolders ∨
        2 ≤ (⟨-1, 0, 1⟩ : LockState).uniqueHolders)) :=
  ⟨⟨[LockEvent.attemptUnique], by decide⟩,
   lock_mutual_exclusion.2.2 ⟨-1, 0, 1⟩ ⟨[LockEvent.attemptUnique], by decide⟩⟩

/-- C3: counterexample to "a CAS failure caused by concurrent mutation alone
never makes the attempt report failure while state is still >= 0".  The
attempt loads 0, a concurrent shared acquisition moves the state to 1 before
the CAS, the CAS fails, and `try_lock` returns false although both the loaded
and the current state are >= 0 — the code has no in-attempt retry loop. -/
theorem shared_attempt_cas_failure_cex :
    (0 : Int) ≤ 0 ∧ (0 : Int) ≤ 1 ∧ (sharedTryLock 0 1).ok = false := by
  decide

/-- C3 (amended): a single shared attempt performs one load and at most one
CAS; when the CAS fails because of a concurrent mutation the attempt itself
reports failure (writing nothing), and the retry happens as a freshly
scheduled attempt of the spin loop, not inside the attempt. -/
theorem shared_attempt_single_cas_no_retry :
    (∀ l c : Int, 0 ≤ l → c ≠ l → sharedTryLock l c = ⟨false, c, []⟩) ∧
    (∀ (l c : Int) (rest : List (Int × Int)),
      (sharedTryLock l c).ok = false →
      spinShared ((l, c) :: rest) = spinShared rest) := by
  constructor
  · intro l c h0 hne
    simp [sharedTryLock, h0, hne]
  · intro l c rest hfail
    simp [spinShared, hfail]

/-- Witness for C3 (amended): loaded 0, state 1 at the CAS. -/
theorem shared_attempt_single_cas_no_retry_witness :
    sharedTryLock 0 1 = ⟨false, 1, []⟩ ∧
    spinShared [(0, 1), (1, 1)] = spinShared [(1, 1)] :=
  ⟨shared_attempt_single_cas_no_retry.1 0 1 (by decide) (by decide),
   shared_attempt_single_cas_no_retry.2 0 1 [(1, 1)] (by decide)⟩

/-- C4: counterexample to "reaching resumption with the result slot still
pending signals a distinguished fatal error ... including void-returning
operations".  For a void `ResultType`, a successful inner operation leaves
`m_result` at `monostate` — the exact pending shape — and `await_resume`
returns normally as success instead of raising any error. -/
theorem void_pending_resume_returns_ok :
    lambdaBodyVoid (E := Unit) none = VoidSlot.monostate ∧
    awaitResumeVoid (E := Unit) VoidSlot.monostate = Except.ok () := by
  exact ⟨rfl, rfl⟩

/-- C4 (amended): for a non-void `ResultType`, reaching resumption with the
slot still `monostate` throws the distinguished internal-consistency
`runtime_error`; when `ResultType` is void, `monostate` doubles as the success
marker and resumption returns normally. -/
theorem pending_resume_behavior :
    (∀ E V : Type, awaitResume (E := E) (V := V) ResultSlot.monostate =
      Except.error ResumeError.internalRuntimeError) ∧
    (∀ E : Type, awaitResumeVoid (E := E) VoidSlot.monostate = Except.ok ()) :=
  ⟨fun _ _ => rfl, fun _ => rfl⟩

/-- C5: outcome fidelity.  The lambda records the inner outcome in the slot
and `await_resume` surfaces exactly that outcome: a value `v` is returned as
`v`, an exception `e` is rethrown as the same `e` (payload preserved), both
for non-void and void result types; a failure is never turned into a success
or vice versa. -/
theorem result_fidelity :
    (∀ (E V : Type) (v : V),
      awaitResume (E := E) (lambdaBody (InnerOutcome.ok v)) = Except.ok v) ∧
    (∀ (E V : Type) (e : E),
      awaitResume (V := V) (lambdaBody (InnerOutcome.err e)) =
        Except.error (ResumeError.rethrown e)) ∧
    (∀ (E : Type) (e : E),
      awaitResumeVoid (lambdaBodyVoid (some e)) =
        Except.error (ResumeError.rethrown e)) ∧
    (∀ E : Type, awaitResumeVoid (E := E) (lambdaBodyVoid none) = Except.ok ()) :=
  ⟨fun _ _ _ => rfl, fun _ _ _ => rfl, fun _ _ => rfl, fun _ => rfl⟩

/-- C6: the wrapper captures the reactor index of the caller at suspension,
falling back to index 0 exactly when the current index is not a valid reactor
index (`currentIdx < threadNum` fails), and the resumption is posted to that
captured origin index for every completion thread and every outcome. -/
theorem affinity_capture_and_repost :
    ∀ (E V : Type) (currentIdx threadNum completionThread : Nat)
      (out : InnerOutcome E V),
      (awaitSuspendRun currentIdx threadNum completionThread out).postedResumeTo =
        (awaitSuspendRun currentIdx threadNum completionThread out).capturedIndex ∧
      (awaitSuspendRun currentIdx threadNum completionThread out).capturedIndex =
        (if currentIdx < threadNum then currentIdx else 0) := by
  intro E V currentIdx threadNum completionThread out
  constructor
  · rfl
  · simp only [awaitSuspendRun]
    split_ifs with h1 h2 h2 <;> omega

/-- C7: the `await_ready` of the wrapper answers false for every wrapped inner
operation (even one that could complete synchronously), so it always
suspends; the `await_ready` of the lock awaitables is the immediate `try_lock`
attempt, which succeeds exactly when the state admits the acquisition
(nonnegative for shared, zero for unique), so they suspend only when that
immediate attempt fails. -/
theorem wrapper_always_suspends_locks_conditionally :
    (∀ b : Bool, resumeAwaitReady b = false) ∧
    (∀ s : Int, sharedAwaitReady s = decide (0 ≤ s)) ∧
    (∀ s : Int, uniqueAwaitReady s = decide (s = 0)) := by
  refine ⟨fun _ => rfl, ?_, ?_⟩
  · intro s
    simp only [sharedAwaitReady, sharedTryLock]
    split_ifs with h <;> simp [h]
  · intro s
    simp only [uniqueAwaitReady, uniqueTryLock]
    split_ifs with h <;> simp [h]

/-- C8: `~SharedProxy` decrements the state by exactly one, `~UniqueProxy`
resets it to zero, and in every reachable lock state with no live proxy left
the state is 0 (quiescence), for every sequence of acquisitions and
releases. -/
theorem release_effects_and_quiescence :
    (∀ ls ls' : LockState, stepLock ls LockEvent.releaseShared = some ls' →
      ls'.state = ls.state - 1 ∧ ls'.sharedHolders = ls.sharedHolders - 1) ∧
    (∀ ls ls' : LockState, stepLock ls LockEvent.releaseUnique = some ls' →
      ls'.state = 0 ∧ ls'.uniqueHolders = ls.uniqueHolders - 1) ∧
    (∀ ls : LockState, ReachableLock ls →
      ls.sharedHolders = 0 → ls.uniqueHolders = 0 → ls.state = 0) := by
  refine ⟨?_, ?_, ?_⟩
  · intro ls ls' h
    simp only [stepLock] at h
    split_ifs at h with hz
    simp only [Option.some.injEq] at h
    subst h
    exact ⟨rfl, rfl⟩
  · intro ls ls' h
    simp only [stepLock] at h
    split_ifs at h with hz
    simp only [Option.some.injEq] at h
    subst h
    exact ⟨rfl, rfl⟩
  · intro ls hreach hsh hu
    have hinv := reachable_lockInv hreach
    rcases hinv with ⟨_, hs⟩ | ⟨h1, _, _⟩
    · rw [hs, hsh]
      rfl
    · omega

/-- Witness for C8: one shared release from state 1, one unique release from
state -1, and quiescence of the initial state. -/
theorem release_effects_and_quiescence_witness :
    ((⟨0, 0, 0⟩ : LockState).state = (⟨1, 1, 0⟩ : LockState).state - 1 ∧
     (⟨0, 0, 0⟩ : LockState).sharedHolders = (⟨1, 1, 0⟩ : LockState).sharedHolders - 1) ∧
    ((⟨0, 0, 0⟩ : LockState).state = 0 ∧
     (⟨0, 0, 0⟩ : LockState).uniqueHolders = (⟨-1, 0, 1⟩ : LockState).uniqueHolders - 1) ∧
    initLock.state = 0 :=
  ⟨release_effects_and_quiescence.1 ⟨1, 1, 0⟩ ⟨0, 0, 0⟩ (by decide),
   release_effects_and_quiescence.2.1 ⟨-1, 0, 1⟩ ⟨0, 0, 0⟩ (by decide),
   release_effects_and_quiescence.2.2 initLock ⟨[], by decide⟩ rfl rfl⟩

/-- C9: `isHolding` leaves the resource untouched and answers true exactly
when the argument has the address of the owned `m_data`; in particular every
other object — even one whose value equals the guarded value — yields
false. -/
theorem isHolding_identity_only :
    (∀ (T : Type) (g : GuardedModel T) (r : DataRef T),
      (isHolding g r).2 = g ∧
      ((isHolding g r).1 = true ↔ r.addr = g.m_data.addr)) ∧
    (∀ (g : GuardedModel Nat) (r : DataRef Nat),
      r.val = g.m_data.val → r.addr ≠ g.m_data.addr →
      (isHolding g r).1 = false) := by
  constructor
  · intro T g r
    refine ⟨rfl, ?_⟩
    simp only [isHolding, beq_iff_eq]
    exact eq_comm
  · intro g r _ hne
    simp only [isHolding, beq_eq_false_iff_ne, ne_eq]
    exact fun h => hne h.symm

/-- Witness for C9: a resource guarding the value 42 at address 1, probed
with a distinct object at address 2 holding the equal value 42. -/
theorem isHolding_identity_only_witness :
    (isHolding (⟨0, ⟨1, 42⟩⟩ : GuardedModel Nat) ⟨2, 42⟩).1 = false :=
  isHolding_identity_only.2 ⟨0, ⟨1, 42⟩⟩ ⟨2, 42⟩ rfl (by decide)

/-- C10: a failed acquisition attempt writes nothing to the atomic state —
after a failed shared attempt the state still holds the value it had at the
failing comparison (the CAS if the load saw a nonnegative value, the load
itself otherwise), after a failed unique CAS it still holds the compared
value — and a failed attempt leaves the whole lock state, live proxies
included, exactly as it was. -/
theorem failed_attempt_frame :
    (∀ l c : Int, (sharedTryLock l c).ok = false →
      (sharedTryLock l c).writes = [] ∧
      (sharedTryLock l c).after = (if 0 ≤ l then c else l)) ∧
    (∀ s : Int, (uniqueTryLock s).ok = false →
      (uniqueTryLock s).writes = [] ∧ (uniqueTryLock s).after = s) ∧
    (∀ ls : LockState, (sharedTryLock ls.state ls.state).ok = false →
      stepLock ls LockEvent.attemptShared = some ls) ∧
    (∀ ls : LockState, (uniqueTryLock ls.state).ok = false →
      stepLock ls LockEvent.attemptUnique = some ls) := by
  refine ⟨?_, ?_, ?_, ?_⟩
  · intro l c h
    simp only [sharedTryLock] at h ⊢
    split_ifs at h ⊢ with h0 h1 <;> simp_all
  · intro s h
    simp only [uniqueTryLock] at h ⊢
    split_ifs at h ⊢ with h0
    all_goals simp_all
  · intro ls h
    simp only [stepLock, h]
    simp only [sharedTryLock] at h ⊢
    split_ifs at h ⊢ with h0 <;> simp_all
  · intro ls h
    simp only [stepLock, h]
    simp only [uniqueTryLock] at h ⊢
    split_ifs at h ⊢ with h0 <;> simp_all

/-- Witness for C10: a shared attempt whose CAS fails (loaded 0, state 3 at
the CAS), a unique attempt against state 7, and whole-state frames for the
held state ⟨-1, 0, 1⟩. -/
theorem failed_attempt_frame_witness :
    ((sharedTryLock 0 3).writes = [] ∧
     (sharedTryLock 0 3).after = (if (0 : Int) ≤ 0 then 3 else 0)) ∧
    ((uniqueTryLock 7).writes = [] ∧ (uniqueTryLock 7).after = 7) ∧
    stepLock ⟨-1, 0, 1⟩ LockEvent.attemptShared = some ⟨-1, 0, 1⟩ ∧
    stepLock ⟨-1, 0, 1⟩ LockEvent.attemptUnique = some ⟨-1, 0, 1⟩ :=
  ⟨failed_attempt_frame.1 0 3 (by decide),
   failed_attempt_frame.2.1 7 (by decide),
   failed_attempt_frame.2.2.1 ⟨-1, 0, 1⟩ (by decide),
   failed_attempt_frame.2.2.2 ⟨-1, 0, 1⟩ (by decide)⟩

end Chat
